import Mathlib

/-!
Verification of the wardrobe configuration layer for rdiff-backup.

The development shallowly embeds the classes of wardrobe.py: the cascading
value holder Defaultable, the command-line Option model, the Place model
(Source and Destination), the PullCompleteHost generator, the Filter
hierarchy with FilterSet, the directory Locker and the source/destination
accessors of BackupRun.  Python None is modelled by Option.none, dynamic
values by small sum types, and raised exceptions by explicit error values.
-/

namespace Wardrobe

/-- Python exceptions raised by the embedded operations. -/
inductive PyErr : Type where
  | typeError
  | attributeError
deriving DecidableEq

/-- Cascading value node, modelling the source class Defaultable.  A node
stores an optional value (none models Python None), the defaulting flag and
an optional parent link: the root constructor models parent = None, the
child constructor a node whose parent is another Defaultable.  Acyclicity
is built into the inductive structure, matching the documented precondition
that no parent cycle is ever constructed. -/
inductive Defaultable (V : Type) : Type where
  | root (value : Option V) (defaulting : Bool)
  | child (value : Option V) (defaulting : Bool) (parent : Defaultable V)
deriving DecidableEq

/-- Defaultable._getvalue: when defaulting is set and a parent exists the
parent value is returned, otherwise the stored value. -/
def Defaultable.getvalue {V : Type} : Defaultable V → Option V
  | .root v _ => v
  | .child v d p => if d then p.getvalue else v

/-- The defaulting flag of a node. -/
def Defaultable.defaulting {V : Type} : Defaultable V → Bool
  | .root _ d => d
  | .child _ d _ => d

/-- The stored value of a node, ignoring the parent link. -/
def Defaultable.stored {V : Type} : Defaultable V → Option V
  | .root v _ => v
  | .child v _ _ => v

/-- Shared tail of Defaultable._setvalue after the type check: the
defaulting flag is set to False and the value is stored. -/
def Defaultable.store {V : Type} : Defaultable V → Option V → Defaultable V
  | .root _ _, v => .root v false
  | .child _ _ p, v => .child v false p

/-- Defaultable._setvalue: when a check type is configured and the value is
not an instance of it, TypeError is raised before any assignment, so the
node is returned unchanged together with the error; otherwise defaulting is
cleared and the value stored. -/
def Defaultable.setvalue {V : Type} (check : Option (Option V → Bool))
    (d : Defaultable V) (v : Option V) : Defaultable V × Option PyErr :=
  match check with
  | some c => if c v then (d.store v, none) else (d, some .typeError)
  | none => (d.store v, none)

/-- Abstract description of one node of a cascading chain: whether its value
was ever explicitly set, and its stored value. -/
structure NodeSpec (V : Type) : Type where
  isSet : Bool
  val : Option V
deriving DecidableEq

/-- Build the Defaultable chain described by a leaf and its ancestor list
(nearest ancestor first).  An explicitly set node has its defaulting flag
cleared, a never-set node still defaults, exactly as construction with a
parent and Defaultable._setvalue leave them. -/
def buildChain {V : Type} : NodeSpec V → List (NodeSpec V) → Defaultable V
  | n, [] => .root n.val (!n.isSet)
  | n, m :: rest => .child n.val (!n.isSet) (buildChain m rest)

/-- Specification-side lookup following the spec text: the explicitly set
value of the nearest ancestor that has one, absent when no ancestor ever
set a value. -/
def nearestSetValue {V : Type} : List (NodeSpec V) → Option V
  | [] => none
  | m :: rest => if m.isSet then m.val else nearestSetValue rest

/-- Well-formedness of a chain description: a never-set node still holds an
absent stored value, as construction leaves it. -/
def chainWF {V : Type} (l : List (NodeSpec V)) : Bool :=
  l.all fun n => n.isSet || n.val.isNone

/-- Dynamic Python value as stored in a command-line Option: None, a bool,
a string or an int. -/
inductive PyV : Type where
  | none
  | pbool (b : Bool)
  | pstr (s : String)
  | pint (n : Int)
deriving DecidableEq

/-- Typed state of a command-line option: the declared type together with
the current value.  Reachable states always match the declared type, which
the source enforces in Option.__init__ and Option._setvalue. -/
inductive OptState : Type where
  | obool (dflt : Bool) (value : Bool)
  | oternary (value : Option Bool)
  | ostr (value : Option String)
  | oint (value : Option Int)
deriving DecidableEq

/-- Models the source class Option: a command-line option with its name,
declared type and current value. -/
structure WOption : Type where
  name : String
  state : OptState
deriving DecidableEq

/-- Option._getvalue: the Ternary wrapper is unwrapped, every other type is
returned as stored. -/
def WOption.value : WOption → PyV
  | ⟨_, .obool _ v⟩ => .pbool v
  | ⟨_, .oternary Option.none⟩ => .none
  | ⟨_, .oternary (some b)⟩ => .pbool b
  | ⟨_, .ostr Option.none⟩ => .none
  | ⟨_, .ostr (some s)⟩ => .pstr s
  | ⟨_, .oint Option.none⟩ => .none
  | ⟨_, .oint (some n)⟩ => .pint n

/-- Option._getdashname: a ternary option renders --name, --no-name or the
empty string depending on its value; every other type renders --name. -/
def WOption.dashname (o : WOption) : String :=
  match o.state with
  | .oternary (some true) => "--" ++ o.name
  | .oternary (some false) => "--no-" ++ o.name
  | .oternary Option.none => ""
  | _ => "--" ++ o.name

/-- Option._getparams: strings render [--name, value] when present, ints
render [--name, str(value)] when present, booleans render [--name] exactly
when the value differs from the declared default, ternaries render
[dashname] when true or false and nothing when unknown. -/
def WOption.params (o : WOption) : List String :=
  match o.state with
  | .ostr (some s) => [o.dashname, s]
  | .ostr Option.none => []
  | .oint (some n) => [o.dashname, toString n]
  | .oint Option.none => []
  | .obool dflt v => if v = dflt then [] else [o.dashname]
  | .oternary (some _) => [o.dashname]
  | .oternary Option.none => []

/-- Option._setvalue with the Ternary value setter inlined: a value of the
wrong type raises TypeError before any assignment, so the option is
returned unchanged together with the error; a matching value is stored. -/
def WOption.setvalue (o : WOption) (v : PyV) : WOption × Option PyErr :=
  match o.state, v with
  | .oternary _, .pbool b => ({o with state := .oternary (some b)}, Option.none)
  | .oternary _, .none => ({o with state := .oternary Option.none}, Option.none)
  | .oternary _, _ => (o, some .typeError)
  | .obool dflt _, .pbool b => ({o with state := .obool dflt b}, Option.none)
  | .obool _ _, _ => (o, some .typeError)
  | .ostr _, .pstr s => ({o with state := .ostr (some s)}, Option.none)
  | .ostr _, .none => ({o with state := .ostr Option.none}, Option.none)
  | .ostr _, _ => (o, some .typeError)
  | .oint _, .pint n => ({o with state := .oint (some n)}, Option.none)
  | .oint _, .none => ({o with state := .oint Option.none}, Option.none)
  | .oint _, _ => (o, some .typeError)

/-- Option.default: reset to the type-neutral default, which is absent for
string, int and ternary options and the declared default for booleans. -/
def WOption.default (o : WOption) : WOption :=
  match o.state with
  | .obool dflt _ => {o with state := .obool dflt dflt}
  | .oternary _ => {o with state := .oternary Option.none}
  | .ostr _ => {o with state := .ostr Option.none}
  | .oint _ => {o with state := .oint Option.none}

/-- Python str.replace on character lists for a non-empty pattern, with the
remaining input length as structural fuel; every step consumes at least one
character, so fuel equal to the input length never runs out. -/
def replaceFuel (pat repl : List Char) : Nat → List Char → List Char
  | _, [] => []
  | 0, s => s
  | fuel + 1, c :: rest =>
    if pat ≠ [] ∧ pat.isPrefixOf (c :: rest) then
      repl ++ replaceFuel pat repl fuel (rest.drop (pat.length - 1))
    else
      c :: replaceFuel pat repl fuel rest

/-- Python str.replace(pat, repl) for a non-empty pattern: every
non-overlapping occurrence is replaced, scanning left to right. -/
def pyReplace (s pat repl : String) : String :=
  ⟨replaceFuel pat.toList repl.toList s.toList.length s.toList⟩

/-- Option._getpropertyname: for options that are not string- or int-typed,
every occurrence of "no-" is removed; then every dash is removed. -/
def WOption.propertyname (o : WOption) : String :=
  let n :=
    match o.state with
    | .ostr _ => o.name
    | .oint _ => o.name
    | _ => pyReplace o.name "no-" ""
  pyReplace n "-" ""

/-- Specification-side reading of the property-name rule as claimed: only a
leading "no-" prefix is stripped (except for string- and int-typed options,
which keep it), then every dash is removed. -/
def claimPropertynameLeading (name : String) (strOrInt : Bool) : String :=
  let l := name.toList
  let l2 :=
    if strOrInt then l
    else if l.take 3 = ['n', 'o', '-'] then l.drop 3 else l
  pyReplace ⟨l2⟩ "-" ""

/-- The recognized options of BackupRun.__init__, with their declared types
and construction-time values. -/
def possibleOptions : List WOption :=
  [⟨"create-full-path", .obool false false⟩,
   ⟨"force", .obool false false⟩,
   ⟨"never-drop-acls", .obool false false⟩,
   ⟨"override-chars-to-quote", .obool false false⟩,
   ⟨"preserve-numerical-ids", .obool false false⟩,
   ⟨"use-compatible-timestamps", .obool false false⟩,
   ⟨"no-acls", .obool true true⟩,
   ⟨"no-compare-inode", .obool true true⟩,
   ⟨"no-compression", .obool true true⟩,
   ⟨"no-eas", .obool true true⟩,
   ⟨"no-file-statistics", .obool true true⟩,
   ⟨"no-hard-links", .obool true true⟩,
   ⟨"no-resource-forks", .obool true true⟩,
   ⟨"ssh-no-compression", .obool true true⟩,
   ⟨"carbonfile", .oternary Option.none⟩,
   ⟨"group-mapping-file", .ostr Option.none⟩,
   ⟨"no-compression-regexp", .ostr Option.none⟩,
   ⟨"remote-schema", .ostr Option.none⟩,
   ⟨"remote-tempdir", .ostr Option.none⟩,
   ⟨"tempdir", .ostr Option.none⟩,
   ⟨"user-mapping-file", .ostr Option.none⟩,
   ⟨"terminal-verbosity", .oint Option.none⟩,
   ⟨"verbosity", .oint Option.none⟩]

/-- BackupRun.__delattr__ acting on the Defaultable entry of one option:
without a parent the stored Option is reset to its type default, with a
parent the entry is set back to defaulting. -/
def delattrEntry : Defaultable WOption → Defaultable WOption
  | .root v d => .root (v.map WOption.default) d
  | .child v _ p => .child v true p

/-- Errors raised at Place render time. -/
inductive PlaceError : Type where
  | settingCombinationError (msg : String)
deriving DecidableEq

/-- A source or destination path, possibly on a remote system, modelling
the source class Place; Source and Destination are its two roles. -/
structure Place : Type where
  directory : Option String
  host : Option String
  user : Option String
  defaultdir : String
deriving DecidableEq

/-- Place.__init__: stores the three fields unchecked and sets the default
directory to the root directory; no combination check happens here. -/
def Place.init (directory host user : Option String) : Place :=
  ⟨directory, host, user, "/"⟩

/-- Place._getstring: the rendered address string, or the combination error
raised at render time. -/
def Place.string (p : Place) : Except PlaceError String :=
  let directory :=
    match p.directory with
    | some d => d
    | Option.none => p.defaultdir
  match p.user with
  | some u =>
    match p.host with
    | some h => .ok (u ++ "@" ++ h ++ "::" ++ directory)
    | Option.none => .error (.settingCombinationError "user without host")
  | Option.none =>
    match p.host with
    | some h => .ok (h ++ "::" ++ directory)
    | Option.none =>
      match p.directory with
      | some _ => .ok directory
      | Option.none => .error (.settingCombinationError "no settings specified")

/-- Character class [A-Za-z0-9.-] of the default PullCompleteHost regex. -/
def allowedHostChar (c : Char) : Bool :=
  c.isAlphanum || c == '.' || c == '-'

/-- re.sub with the pattern [^A-Za-z0-9.-]: each single disallowed
character is replaced by the substitute string. -/
def regexSub (subst : String) (host : String) : String :=
  String.join (host.toList.map fun c =>
    if allowedHostChar c then c.toString else subst)

/-- posixpath.join of two components as used by generate: an absolute
second component wins, otherwise a separator is inserted unless the first
component is empty or already ends with one. -/
def ospathJoin (a b : String) : String :=
  if b.toList.head? = some '/' then b
  else if a = "" ∨ a.toList.getLast? = some '/' then a ++ b
  else a ++ "/" ++ b

/-- Specification-side helper for the substitution as the claim words it:
every maximal run of disallowed characters becomes one copy of the
substitute string.  The flag records whether the previous character was
disallowed. -/
def runSubAux (subst : String) : Bool → List Char → String
  | _, [] => ""
  | inRun, c :: rest =>
    if allowedHostChar c then c.toString ++ runSubAux subst false rest
    else (if inRun then "" else subst) ++ runSubAux subst true rest

/-- Specification-side substitution collapsing runs, per the claim text. -/
def runSub (subst : String) (host : String) : String :=
  runSubAux subst false host.toList

/-- Models the source class PullCompleteHost with its default regex; the
basedir is taken as already absolute, as in the documented example. -/
structure PullCompleteHost : Type where
  basedir : String
  user : Option String
  subst : String
deriving DecidableEq

/-- PullCompleteHost.__init__ with the default user and substitute. -/
def PullCompleteHost.init (basedir : String) : PullCompleteHost :=
  ⟨basedir, Option.none, "_"⟩

/-- PullCompleteHost.generate: the Source - Destination pair for a host. -/
def PullCompleteHost.generate (g : PullCompleteHost) (host : String) :
    Place × Place :=
  (Place.init (some "/") (some host) g.user,
   Place.init (some (ospathJoin g.basedir (regexSub g.subst host)))
     Option.none Option.none)

/-- Leaf filter parameters of the source Filter hierarchy: FlagFilter
subclasses, SingleFilter subclasses with a string value and IntFilter
subclasses with an int value, each carrying its parameter name. -/
inductive WFilter : Type where
  | flag (param : String)
  | single (param : String) (value : String)
  | intf (param : String) (value : Int)
deriving DecidableEq

/-- Filter._getparams for the leaf classes: FlagFilter renders [--param],
SingleFilter [--param, value] and IntFilter [--param, str(value)]. -/
def WFilter.params : WFilter → List String
  | .flag p => ["--" ++ p]
  | .single p v => ["--" ++ p, v]
  | .intf p v => ["--" ++ p, toString v]

/-- Models the source class FilterSet: the ordered list of added filters. -/
structure FilterSet : Type where
  filters : List WFilter
deriving DecidableEq

/-- FilterSet._getparams: the concatenation of the member params in
insertion order. -/
def FilterSet.params (s : FilterSet) : List String :=
  (s.filters.map WFilter.params).flatten

/-- Argument to FilterSet.extend: a single Filter instance, a sequence
(Python list) of further arguments, or a value that is neither. -/
inductive Arg : Type where
  | filt (f : WFilter)
  | seq (args : List Arg)
  | other

mutual

/-- One loop iteration of FilterSet.extend: a Filter instance is appended
to the list, an iterable is recursively extended element by element, and
anything else raises TypeError. -/
def extendArg (acc : List WFilter) : Arg → Except PyErr (List WFilter)
  | .filt f => .ok (acc ++ [f])
  | .seq args => extendArgs acc args
  | .other => .error .typeError

/-- FilterSet.extend over its argument tuple, threading the accumulated
filter list through the loop. -/
def extendArgs (acc : List WFilter) : List Arg → Except PyErr (List WFilter)
  | [] => .ok acc
  | a :: rest =>
    match extendArg acc a with
    | .ok acc2 => extendArgs acc2 rest
    | .error e => .error e

end

mutual

/-- Specification-side depth-first flattening of one extend argument. -/
def flattenArg : Arg → List WFilter
  | .filt f => [f]
  | .seq args => flattenArgs args
  | .other => []

/-- Specification-side depth-first flattening of an argument list. -/
def flattenArgs : List Arg → List WFilter
  | [] => []
  | a :: rest => flattenArg a ++ flattenArgs rest

end

mutual

/-- True when an argument contains no non-filter, non-sequence value at
any depth. -/
def argOk : Arg → Bool
  | .filt _ => true
  | .seq args => argsOk args
  | .other => false

/-- True when every argument of the list is accepted at every depth. -/
def argsOk : List Arg → Bool
  | [] => true
  | a :: rest => argOk a && argsOk rest

end

/-- Errors raised by the Locker operations. -/
inductive LockError : Type where
  | stateError
  | acquireError (path : String)
  | osError (code : Nat)
deriving DecidableEq

/-- Models the source class Locker: the lock path and whether this instance
currently holds the lock. -/
structure Locker : Type where
  path : String
  locked : Bool
deriving DecidableEq

/-- Outcome of the os.mkdir call inside Locker._lock. -/
inductive MkdirOutcome : Type where
  | ok
  | eexist
  | oserr (code : Nat)
deriving DecidableEq

/-- Filesystem model of os.mkdir on the lock path: an unrelated OSError
(when the environment produces one) propagates with its code, otherwise
the call fails with EEXIST exactly when the directory already exists and
succeeds otherwise. -/
def mkdirModel (dirExists : Bool) (io : Option Nat) : MkdirOutcome :=
  match io with
  | some c => .oserr c
  | Option.none => if dirExists then .eexist else .ok

/-- Locker.lock together with Locker._lock: an instance that already holds
the lock raises StateError; otherwise an EEXIST from mkdir becomes
AcquireError, any other OSError propagates unchanged, and on success the
instance is marked as holding the lock. -/
def Locker.lockRun (l : Locker) (outcome : MkdirOutcome) :
    Except LockError Locker :=
  if l.locked then .error .stateError
  else
    match outcome with
    | .ok => .ok {l with locked := true}
    | .eexist => .error (.acquireError l.path)
    | .oserr c => .error (.osError c)

/-- Result of a BackupRun attribute read: either a Place value (the Python
None or a Place instance), or the Defaultable wrapper object itself. -/
inductive RunAttr : Type where
  | placeVal (p : Option Place)
  | wrapper (d : Defaultable Place)
deriving DecidableEq

/-- The source and destination slots of BackupRun. -/
structure BackupRunSD : Type where
  source : Defaultable Place
  destination : Defaultable Place
deriving DecidableEq

/-- BackupRun._getsource: returns self._source.value, the effective
Source. -/
def BackupRunSD.getsource (b : BackupRunSD) : RunAttr :=
  .placeVal b.source.getvalue

/-- BackupRun._getdestination: returns self._destination itself, the
Defaultable wrapper, not its value. -/
def BackupRunSD.getdestination (b : BackupRunSD) : RunAttr :=
  .wrapper b.destination

/-- Effective-value reading on a well-formed chain agrees with the nearest
explicitly set value, starting from the leaf itself. -/
theorem getvalue_buildChain {V : Type} (n : NodeSpec V)
    (rest : List (NodeSpec V)) (h : chainWF (n :: rest) = true) :
    (buildChain n rest).getvalue =
      if n.isSet then n.val else nearestSetValue rest := by
  induction rest generalizing n with
  | nil =>
    rcases n with ⟨isSet, val⟩
    cases isSet with
    | true => simp [buildChain, Defaultable.getvalue, nearestSetValue]
    | false =>
      have hv : val = Option.none := by simpa [chainWF] using h
      simp [buildChain, Defaultable.getvalue, nearestSetValue, hv]
  | cons m r ih =>
    rcases n with ⟨isSet, val⟩
    have h2 : chainWF (m :: r) = true := by
      simp only [chainWF, List.all_cons, Bool.and_eq_true] at h ⊢
      exact h.2
    cases isSet with
    | true => simp [buildChain, Defaultable.getvalue]
    | false =>
      simp only [buildChain, Defaultable.getvalue, Bool.not_false, if_true,
        if_neg, nearestSetValue]
      rw [ih m h2]
      simp [nearestSetValue]

/-- C1: in every cascading chain whose leaf value was never explicitly
set, reading the effective value of the leaf returns the stored value of
the nearest ancestor whose value was explicitly set, and absent (none)
when no ancestor was ever set. -/
theorem C1_cascading_read {V : Type} (leaf : NodeSpec V)
    (ancestors : List (NodeSpec V))
    (hwf : chainWF (leaf :: ancestors) = true) (hleaf : leaf.isSet = false) :
    (buildChain leaf ancestors).getvalue = nearestSetValue ancestors := by
  rw [getvalue_buildChain leaf ancestors hwf, hleaf]
  simp

/-- Witness for C1: a depth-four chain whose leaf and first ancestor were
never set reads the second ancestor's explicitly set value. -/
theorem C1_cascading_read_witness :
    (buildChain (⟨false, Option.none⟩ : NodeSpec Nat)
        [⟨false, Option.none⟩, ⟨true, some 5⟩, ⟨true, some 7⟩]).getvalue =
      some 5 := by
  rw [C1_cascading_read (⟨false, Option.none⟩ : NodeSpec Nat)
    [⟨false, Option.none⟩, ⟨true, some 5⟩, ⟨true, some 7⟩]
    (by decide) (by decide)]
  decide

/-- C2: Defaultable._setvalue clears the defaulting flag on every accepted
value, in particular on one equal to the current default; and the delete
of a job option re-enables defaulting when the entry has a parent, while
without a parent it resets the stored Option to its type-neutral default
(absent for string, int and ternary options, the declared default for
booleans). -/
theorem C2_set_clears_reset_restores :
    (∀ (V : Type) (check : Option (Option V → Bool)) (d : Defaultable V)
        (v : Option V),
      (Defaultable.setvalue check d v).2 = Option.none →
      ((Defaultable.setvalue check d v).1).defaulting = false) ∧
    (∀ (v : Option WOption) (b : Bool) (p : Defaultable WOption),
      delattrEntry (.child v b p) = .child v true p) ∧
    (∀ (o : WOption) (b : Bool),
      delattrEntry (.root (some o) b) = .root (some o.default) b) ∧
    (∀ (name : String) (dflt v : Bool),
      WOption.default ⟨name, .obool dflt v⟩ = ⟨name, .obool dflt dflt⟩) ∧
    (∀ (name : String) (t : Option Bool),
      WOption.default ⟨name, .oternary t⟩ = ⟨name, .oternary Option.none⟩) ∧
    (∀ (name : String) (s : Option String),
      WOption.default ⟨name, .ostr s⟩ = ⟨name, .ostr Option.none⟩) ∧
    (∀ (name : String) (n : Option Int),
      WOption.default ⟨name, .oint n⟩ = ⟨name, .oint Option.none⟩) := by
  refine ⟨?_, ?_, ?_, ?_, ?_, ?_, ?_⟩
  · intro V check d v h
    cases check with
    | none =>
      cases d <;>
        simp [Defaultable.setvalue, Defaultable.store, Defaultable.defaulting]
    | some c =>
      cases hc : c v with
      | true =>
        cases d <;>
          simp [Defaultable.setvalue, Defaultable.store,
            Defaultable.defaulting, hc]
      | false => simp [Defaultable.setvalue, hc] at h
  · intro v b p; rfl
  · intro o b; rfl
  · intro name dflt v; rfl
  · intro name t; rfl
  · intro name s; rfl
  · intro name n; rfl

/-- Witness for C2: setting a value on a defaulting node with a passing
type check clears the defaulting flag. -/
theorem C2_set_clears_reset_restores_witness :
    ((Defaultable.setvalue (some fun _ => true)
        (Defaultable.root (some 3) true) (some (4 : Nat))).1).defaulting =
      false := by
  exact C2_set_clears_reset_restores.1 Nat (some fun _ => true)
    (Defaultable.root (some 3) true) (some 4) rfl

/-- C3: option token rendering is exactly as claimed, for every name and
value: booleans render nothing at the declared default and exactly
[--name] otherwise; ternaries render [] when unknown, [--name] when true
and [--no-name] when false, with no other case; strings and ints render
[--name, value] when present (stringified for ints) and [] when absent. -/
theorem C3_option_rendering :
    (∀ (name : String) (dflt v : Bool),
      WOption.params ⟨name, .obool dflt v⟩ =
        if v = dflt then [] else ["--" ++ name]) ∧
    (∀ name : String, WOption.params ⟨name, .oternary Option.none⟩ = []) ∧
    (∀ name : String,
      WOption.params ⟨name, .oternary (some true)⟩ = ["--" ++ name]) ∧
    (∀ name : String,
      WOption.params ⟨name, .oternary (some false)⟩ = ["--no-" ++ name]) ∧
    (∀ (name s : String),
      WOption.params ⟨name, .ostr (some s)⟩ = ["--" ++ name, s]) ∧
    (∀ name : String, WOption.params ⟨name, .ostr Option.none⟩ = []) ∧
    (∀ (name : String) (n : Int),
      WOption.params ⟨name, .oint (some n)⟩ = ["--" ++ name, toString n]) ∧
    (∀ name : String, WOption.params ⟨name, .oint Option.none⟩ = []) := by
  refine ⟨?_, ?_, ?_, ?_, ?_, ?_, ?_, ?_⟩ <;> intros <;>
    simp [WOption.params, WOption.dashname]

/-- Counterexample to C4 as stated: the code substitutes every single
disallowed character, not every run.  On the host a!!b the generated
destination directory is /var/backup/data/a__b, while joining the basedir
with the run-collapsing substitution of the claim text gives
/var/backup/data/a_b, so the claimed directory is not the generated one. -/
theorem C4_counterexample :
    (((PullCompleteHost.init "/var/backup/data").generate "a!!b").2).directory =
      some "/var/backup/data/a__b" ∧
    ospathJoin "/var/backup/data" (runSub "_" "a!!b") = "/var/backup/data/a_b" ∧
    (((PullCompleteHost.init "/var/backup/data").generate "a!!b").2).directory ≠
      some (ospathJoin "/var/backup/data" (runSub "_" "a!!b")) := by
  refine ⟨rfl, rfl, by decide⟩

/-- C4 as amended: generate produces a Source with directory /, the given
host and the configured user, and a Destination whose directory is basedir
joined with the host after substituting every single character outside
[A-Za-z0-9.-] with the substitute string; on the documented example the
destination renders to /var/backup/data/a.example.de and the source to
a.example.de::/. -/
theorem C4_generate :
    (∀ (g : PullCompleteHost) (host : String),
      g.generate host =
        (Place.init (some "/") (some host) g.user,
         Place.init (some (ospathJoin g.basedir (regexSub g.subst host)))
           Option.none Option.none)) ∧
    (((PullCompleteHost.init "/var/backup/data").generate
        "a.example.de").2).string = .ok "/var/backup/data/a.example.de" ∧
    (((PullCompleteHost.init "/var/backup/data").generate
        "a.example.de").1).string = .ok "a.example.de::/" := by
  exact ⟨fun g host => rfl, rfl, rfl⟩

/-- Counterexample to C5 as stated: the code removes every occurrence of
"no-" from a non-string, non-int option name, not only a leading prefix.
The recognized boolean option ssh-no-compression is exposed as
sshcompression, while the claimed rule gives sshnocompression. -/
theorem C5_counterexample :
    WOption.propertyname ⟨"ssh-no-compression", .obool true true⟩ =
      "sshcompression" ∧
    claimPropertynameLeading "ssh-no-compression" false =
      "sshnocompression" ∧
    WOption.propertyname ⟨"ssh-no-compression", .obool true true⟩ ≠
      claimPropertynameLeading "ssh-no-compression" false := by
  refine ⟨rfl, rfl, by decide⟩

/-- C5 as amended: for every recognized option, the exposed property name
is the command-line name with every occurrence of "no-" removed and dashes
removed, except for string- and integer-typed options, which keep "no-";
listed here for the full recognized-option table of BackupRun.__init__. -/
theorem C5_amended_propertynames :
    possibleOptions.map WOption.propertyname =
      ["createfullpath", "force", "neverdropacls", "overridecharstoquote",
       "preservenumericalids", "usecompatibletimestamps", "acls",
       "compareinode", "compression", "eas", "filestatistics", "hardlinks",
       "resourceforks", "sshcompression", "carbonfile", "groupmappingfile",
       "nocompressionregexp", "remoteschema", "remotetempdir", "tempdir",
       "usermappingfile", "terminalverbosity", "verbosity"] := by
  rfl

/-- C6: Place rendering is exactly as claimed: a lone directory renders
itself, a host renders host::directory with the default directory /, user
with host renders user@host::directory, user without host and the empty
combination raise SettingCombinationError, and construction itself merely
stores the fields, so the errors can only arise at render time. -/
theorem C6_place_rendering :
    (∀ x : String,
      (Place.init (some x) Option.none Option.none).string = .ok x) ∧
    (∀ h : String,
      (Place.init Option.none (some h) Option.none).string =
        .ok (h ++ "::" ++ "/")) ∧
    (∀ (d h : String),
      (Place.init (some d) (some h) Option.none).string =
        .ok (h ++ "::" ++ d)) ∧
    (∀ (u h : String) (d : Option String),
      (Place.init d (some h) (some u)).string =
        .ok (u ++ "@" ++ h ++ "::" ++ d.getD "/")) ∧
    (∀ (u : String) (d : Option String),
      (Place.init d Option.none (some u)).string =
        .error (.settingCombinationError "user without host")) ∧
    ((Place.init Option.none Option.none Option.none).string =
      .error (.settingCombinationError "no settings specified")) ∧
    (∀ (d h u : Option String),
      Place.init d h u = ⟨d, h, u, "/"⟩) := by
  refine ⟨fun x => rfl, fun h => rfl, fun d h => rfl, ?_, ?_, rfl, fun d h u => rfl⟩
  · intro u h d; cases d <;> rfl
  · intro u d; cases d <;> rfl

mutual

/-- Extending with one argument free of foreign values appends its
depth-first flattening. -/
theorem extendArg_ok (acc : List WFilter) (a : Arg) (h : argOk a = true) :
    extendArg acc a = .ok (acc ++ flattenArg a) := by
  cases a with
  | filt f => simp [extendArg, flattenArg]
  | seq args =>
    rw [extendArg, flattenArg]
    exact extendArgs_ok acc args (by simpa [argOk] using h)
  | other => simp [argOk] at h

/-- Extending with an argument list free of foreign values appends its
depth-first flattening, preserving relative order. -/
theorem extendArgs_ok (acc : List WFilter) (args : List Arg)
    (h : argsOk args = true) :
    extendArgs acc args = .ok (acc ++ flattenArgs args) := by
  cases args with
  | nil => simp [extendArgs, flattenArgs]
  | cons a rest =>
    have h1 : argOk a = true := by
      simp only [argsOk, Bool.and_eq_true] at h; exact h.1
    have h2 : argsOk rest = true := by
      simp only [argsOk, Bool.and_eq_true] at h; exact h.2
    rw [extendArgs, extendArg_ok acc a h1]
    show extendArgs (acc ++ flattenArg a) rest = _
    rw [extendArgs_ok (acc ++ flattenArg a) rest h2]
    simp [flattenArgs]

end

/-- C7: FilterSet.extend flattens any mixture of filters and arbitrarily
nested sequences depth-first into the ordered member list, preserving
relative order; the documented example yields the order f1, f2, f3, f4; an
argument that is neither a filter nor a sequence fails with TypeError; and
rendering concatenates the member token lists in insertion order. -/
theorem C7_extend_flatten :
    (∀ (acc : List WFilter) (args : List Arg), argsOk args = true →
      extendArgs acc args = .ok (acc ++ flattenArgs args)) ∧
    (∀ f1 f2 f3 f4 : WFilter,
      extendArgs [] [.seq [.filt f1, .seq [.filt f2, .filt f3]], .filt f4] =
        .ok [f1, f2, f3, f4]) ∧
    (∀ acc : List WFilter, extendArg acc .other = .error .typeError) ∧
    (∀ s : FilterSet, s.params = (s.filters.map WFilter.params).flatten) := by
  refine ⟨fun acc args h => extendArgs_ok acc args h,
    fun f1 f2 f3 f4 => rfl, fun acc => rfl, fun s => rfl⟩

/-- Witness for C7: extending the empty set with a nested sequence of two
filters produces exactly those filters in order. -/
theorem C7_extend_flatten_witness :
    extendArgs [] [Arg.seq [Arg.filt (WFilter.flag "force")],
        Arg.filt (WFilter.single "include" "/etc")] =
      .ok [WFilter.flag "force", WFilter.single "include" "/etc"] := by
  exact C7_extend_flatten.1 []
    [Arg.seq [Arg.filt (WFilter.flag "force")],
     Arg.filt (WFilter.single "include" "/etc")] (by decide)

/-- C8: lock acquisition raises the already-locked state error when this
instance holds the lock; otherwise, absent unrelated filesystem errors, it
fails with AcquireError exactly when the lock directory already exists;
an unrelated filesystem error propagates unchanged; and on success the
instance is marked as holding the lock. -/
theorem C8_lock_acquire :
    (∀ (l : Locker) (dirExists : Bool) (io : Option Nat),
      l.locked = true →
      l.lockRun (mkdirModel dirExists io) = .error .stateError) ∧
    (∀ (l : Locker) (dirExists : Bool),
      l.locked = false →
      (l.lockRun (mkdirModel dirExists Option.none) =
          .error (.acquireError l.path) ↔ dirExists = true)) ∧
    (∀ (l : Locker) (dirExists : Bool) (c : Nat),
      l.locked = false →
      l.lockRun (mkdirModel dirExists (some c)) = .error (.osError c)) ∧
    (∀ (l l2 : Locker) (outcome : MkdirOutcome),
      l.lockRun outcome = .ok l2 → l2.locked = true ∧ l2.path = l.path) ∧
    (∀ l : Locker, l.locked = false →
      l.lockRun (mkdirModel false Option.none) = .ok {l with locked := true}) := by
  refine ⟨?_, ?_, ?_, ?_, ?_⟩
  · intro l dirExists io h
    simp [Locker.lockRun, h]
  · intro l dirExists h
    cases dirExists <;> simp [Locker.lockRun, mkdirModel, h]
  · intro l dirExists c h
    simp [Locker.lockRun, mkdirModel, h]
  · intro l l2 outcome h
    by_cases hl : l.locked = true
    · simp [Locker.lockRun, hl] at h
    · cases outcome with
      | ok =>
        simp [Locker.lockRun, eq_false_of_ne_true hl] at h
        simp [← h]
      | eexist => simp [Locker.lockRun, eq_false_of_ne_true hl] at h
      | oserr c => simp [Locker.lockRun, eq_false_of_ne_true hl] at h
  · intro l h
    simp [Locker.lockRun, mkdirModel, h]

/-- Witness for C8: an unlocked instance pointed at an existing lock
directory fails with AcquireError. -/
theorem C8_lock_acquire_witness :
    Locker.lockRun ⟨"wardrobe.lock.d", false⟩ (mkdirModel true Option.none) =
      .error (.acquireError "wardrobe.lock.d") := by
  exact (C8_lock_acquire.2.1 ⟨"wardrobe.lock.d", false⟩ true rfl).mpr rfl

/-- C9 is violated by the code: at a run whose destination was explicitly
set to the Place /x, the destination accessor returns the Defaultable
wrapper object and never a Place value, while the symmetric source
accessor returns the effective Place. -/
theorem C9_destination_returns_wrapper :
    (BackupRunSD.getdestination
        ⟨.root (some (Place.init (some "/src") Option.none Option.none)) false,
         .root (some (Place.init (some "/x") Option.none Option.none)) false⟩ =
      .wrapper
        (.root (some (Place.init (some "/x") Option.none Option.none)) false)) ∧
    (∀ p : Option Place,
      BackupRunSD.getdestination
          ⟨.root (some (Place.init (some "/src") Option.none Option.none)) false,
           .root (some (Place.init (some "/x") Option.none Option.none)) false⟩ ≠
        .placeVal p) ∧
    (BackupRunSD.getsource
        ⟨.root (some (Place.init (some "/src") Option.none Option.none)) false,
         .root (some (Place.init (some "/x") Option.none Option.none)) false⟩ =
      .placeVal (some (Place.init (some "/src") Option.none Option.none))) := by
  refine ⟨rfl, ?_, rfl⟩
  intro p
  simp [BackupRunSD.getdestination]

/-- C10: when the type check fails, Defaultable._setvalue raises and the
node keeps its stored value, defaulting flag and parent link, so a failed
set never detaches the node; Option._setvalue enjoys the same atomicity. -/
theorem C10_failed_set_atomic :
    (∀ (V : Type) (c : Option V → Bool) (d : Defaultable V) (v : Option V)
        (e : PyErr),
      (Defaultable.setvalue (some c) d v).2 = some e →
      (Defaultable.setvalue (some c) d v).1 = d) ∧
    (∀ (o : WOption) (v : PyV) (e : PyErr),
      (WOption.setvalue o v).2 = some e → (WOption.setvalue o v).1 = o) := by
  constructor
  · intro V c d v e h
    cases hc : c v with
    | true => simp [Defaultable.setvalue, hc] at h
    | false => simp [Defaultable.setvalue, hc]
  · intro o v e h
    rcases o with ⟨name, st⟩
    cases st <;> cases v <;> simp_all [WOption.setvalue]

/-- Witness for C10: a failing type check leaves a defaulting child node
unchanged, and a string option rejects a bool without changing state. -/
theorem C10_failed_set_atomic_witness :
    (Defaultable.setvalue (some fun _ => false)
        (Defaultable.root (some 3) true) (some (4 : Nat))).1 =
      Defaultable.root (some 3) true ∧
    (WOption.setvalue ⟨"tempdir", .ostr Option.none⟩ (.pbool true)).1 =
      ⟨"tempdir", .ostr Option.none⟩ := by
  exact ⟨C10_failed_set_atomic.1 Nat (fun _ => false)
      (Defaultable.root (some 3) true) (some 4) PyErr.typeError rfl,
    C10_failed_set_atomic.2 ⟨"tempdir", .ostr Option.none⟩ (.pbool true)
      PyErr.typeError rfl⟩

end Wardrobe
